import Mathlib

/-!
Verification of the PythonServer song-resolution and MP3-tagging pipeline
(src/main.py) against its natural-language specification.

The development shallowly embeds the two core components:

* the Tagger: `embed_metadata` (path mode, src/main.py lines 193-256) and
  `embed_metadata_memory` (buffer mode, lines 259-321), built on mutagen's
  ID3 tag dictionary whose `add` replaces any frame sharing the new frame's
  hash key (FrameID, extended by desc/lang for COMM/USLT/APIC);
* the Resolver: `search_pagalworld` (lines 39-133), with google search,
  page fetch and HTML lookup modelled as an explicit environment of
  fallible collaborator results (`Except PyExc`), and the four
  audio-reference lookup strategies as pure functions over a document.

Python exceptions are modelled with `Except PyExc`; Python `None`/empty
truthiness on strings with `pyFalsy`.
-/

/-- A Python exception, as far as the embedded code distinguishes them. -/
inductive PyExc
  | nameError (name : String)
  | netError (msg : String)
  | parseError (msg : String)
  deriving DecidableEq, Repr

/-! ## Python string operations

Models of the Python string methods the source uses (`startswith`,
`endswith`, `in`, `strip`, `split('/')`, `'/'.join`, emptiness), defined
by structural recursion over the character list so that concrete instances
reduce inside the kernel. -/

/-- `pre` is a prefix of `s`, over character lists. -/
def charsPrefix : List Char → List Char → Bool
  | [], _ => true
  | _ :: _, [] => false
  | x :: xs, y :: ys => x == y && charsPrefix xs ys

/-- Python `s.startswith(pre)`. -/
def pyStartsWith (s pre : String) : Bool :=
  charsPrefix pre.data s.data

/-- Python `s.endswith(suf)`. -/
def pyEndsWith (s suf : String) : Bool :=
  charsPrefix suf.data.reverse s.data.reverse

/-- Python `c in s` for a single character. -/
def pyContainsChar (s : String) (c : Char) : Bool :=
  s.data.contains c

/-- Python truthiness of a string: `False` exactly for `""`. -/
def pyTruthy (s : String) : Bool :=
  !s.data.isEmpty

/-- Python `s.strip()`. -/
def pyStrip (s : String) : String :=
  ⟨((s.data.dropWhile Char.isWhitespace).reverse.dropWhile
      Char.isWhitespace).reverse⟩

/-- Python `s.split(c)` over character lists: the resulting list is never
empty, and splitting `""` gives `[""]`. -/
def splitChar (c : Char) : List Char → List (List Char)
  | [] => [[]]
  | x :: xs =>
    let r := splitChar c xs
    if x == c then [] :: r
    else
      match r with
      | [] => [[x]]
      | y :: ys => (x :: y) :: ys

/-- Python `c.join(parts)` over character lists. -/
def joinChar (c : Char) : List (List Char) → List Char
  | [] => []
  | [y] => y
  | y :: ys => y ++ c :: joinChar c ys

/-- Python `s.split('/')`. -/
def pySplitSlash (s : String) : List String :=
  (splitChar '/' s.data).map (fun l => ⟨l⟩)

/-- Python `'/'.join(parts)`. -/
def pyJoinSlash (l : List String) : String :=
  ⟨joinChar '/' (l.map String.data)⟩

theorem splitChar_ne_nil (c : Char) (l : List Char) : splitChar c l ≠ [] := by
  cases l with
  | nil => simp [splitChar]
  | cons x xs =>
    simp only [splitChar]
    split
    · simp
    · split <;> simp_all

/-- Splitting on a character and joining back is the identity (so Python's
`'/'.join(p.split('/'))` returns the path unchanged). -/
theorem joinChar_splitChar (c : Char) (l : List Char) :
    joinChar c (splitChar c l) = l := by
  induction l with
  | nil => rfl
  | cons x xs ih =>
    simp only [splitChar]
    by_cases hx : x == c
    · have hne := splitChar_ne_nil c xs
      simp only [hx, if_pos]
      cases h : splitChar c xs with
      | nil => exact absurd h hne
      | cons y ys =>
        rw [h] at ih
        simp only [joinChar]
        rw [← ih]
        have hxc : x = c := by
          have : (x == c) = true := hx
          exact beq_iff_eq.mp this
        simp [hxc]
    · simp only [hx]
      cases h : splitChar c xs with
      | nil => exact absurd h (splitChar_ne_nil c xs)
      | cons y ys =>
        rw [h] at ih
        cases ys with
        | nil => simpa [joinChar] using ih
        | cons z zs => simpa [joinChar] using ih

theorem pyJoinSlash_pySplitSlash (s : String) :
    pyJoinSlash (pySplitSlash s) = s := by
  cases s with
  | mk data =>
    simp only [pySplitSlash, pyJoinSlash, List.map_map]
    have : (String.data ∘ fun l : List Char => (⟨l⟩ : String)) = id := by
      funext l; rfl
    rw [this, List.map_id, joinChar_splitChar]

/-! ## ID3 frames and the mutagen tag dictionary -/

/-- One ID3 tag frame, covering exactly the frame constructors used by
src/main.py: TIT2, TPE1, TALB, TYER, TDRC, TRCK, TCON, TCOM, COMM, USLT,
APIC.  Byte payloads are `List Nat`. -/
inductive Frame
  | TIT2 (text : String)
  | TPE1 (text : String)
  | TALB (text : String)
  | TYER (text : String)
  | TDRC (text : String)
  | TRCK (text : String)
  | TCON (text : String)
  | TCOM (texts : List String)
  | COMM (lang : String) (desc : String) (text : String)
  | USLT (desc : String) (text : String)
  | APIC (mime : String) (ptype : Nat) (desc : String) (data : List Nat)
  deriving DecidableEq, Repr

/-- mutagen's HashKey values: the FrameID for text frames, extended by the
descriptor (and language) for COMM/USLT/APIC.  The string format mutagen
uses is irrelevant; only which frames collide matters, so the key is kept
structured. -/
inductive HashKey
  | tit2 | tpe1 | talb | tyer | tdrc | trck | tcon | tcom
  | comm (desc : String) (lang : String)
  | uslt (desc : String) (lang : String)
  | apic (desc : String)
  deriving DecidableEq, Repr

namespace Frame

/-- The HashKey under which mutagen's `ID3` dict stores each frame;
`ID3.add` replaces exactly the frame holding an equal key. -/
def hashKey : Frame → HashKey
  | TIT2 _ => .tit2
  | TPE1 _ => .tpe1
  | TALB _ => .talb
  | TYER _ => .tyer
  | TDRC _ => .tdrc
  | TRCK _ => .trck
  | TCON _ => .tcon
  | TCOM _ => .tcom
  | COMM lang desc _ => .comm desc lang
  | USLT desc _ => .uslt desc "eng"
  | APIC _ _ desc _ => .apic desc

/-- A picture (APIC) frame of any picture type. -/
def isPicture : Frame → Bool
  | APIC _ _ _ _ => true
  | _ => false

/-- An APIC frame with picture type 3, "front cover". -/
def isFrontCover : Frame → Bool
  | APIC _ ptype _ _ => ptype == 3
  | _ => false

/-- An APIC frame with picture type 4, "back cover". -/
def isBackCover : Frame → Bool
  | APIC _ ptype _ _ => ptype == 4
  | _ => false

end Frame

/-- The tag section: the frames held by the ID3 dictionary. -/
abbrev Tags := List Frame

namespace ID3

/-- mutagen `ID3.add`: dict assignment keyed by the frame's hash key — any
frame with the same hash key is replaced by the new one (frames with other
keys are untouched). -/
def add (t : Tags) (f : Frame) : Tags :=
  t.filter (fun g => g.hashKey != f.hashKey) ++ [f]

/-- Read back the frame stored at a hash key. -/
def getKey (t : Tags) (k : HashKey) : Option Frame :=
  t.find? (fun g => g.hashKey == k)

/-- Adding frames one after another, as the embed functions do. -/
def addAll (t : Tags) (l : List Frame) : Tags :=
  l.foldl add t

end ID3

/-! ## Metadata records and the cover fetch -/

/-- The metadata dict consumed by both embed functions.  `title`, `artist`,
`album` are accessed unconditionally (`metadata["title"]` etc.); every other
field is guarded by a key-presence test, modelled as `Option`.  For `year`,
`genres`, `composers` and `cover_url` the code additionally tests Python
truthiness of the value, which the embedding checks on the carried value. -/
structure Metadata where
  title : String
  artist : String
  album : String
  year : Option String := none
  track_number : Option Int := none
  total_tracks : Option Int := none
  genres : Option (List String) := none
  composers : Option (List String) := none
  popularity : Option Int := none
  cover_url : Option String := none
  deriving Repr

/-- Outcome of `requests.get(metadata["cover_url"])`: status code and body
bytes; `none` models a raised network exception. -/
structure CoverResp where
  status : Nat
  content : List Nat
  deriving DecidableEq, Repr

/-- The cover-fetch collaborator: `none` = the request raised. -/
abbrev CoverFetch := Option CoverResp

/-! ## The two embed functions

Both functions run the same straight-line frame-writing sequence
(src/main.py lines 204-250 and 272-312); each is transcribed separately
from its own source lines so their equality is a theorem, not a
definitional accident of sharing code. -/

/-- Frame-writing sequence of `embed_metadata` (path mode,
src/main.py lines 204-250), applied to the tag section `t0` of the parsed
file (`add_tags` on an untagged file contributes the empty section). -/
def embedFramesPath (m : Metadata) (lyrics : String) (cover : CoverFetch)
    (t0 : Tags) : Tags :=
  let t := ID3.add t0 (.TIT2 m.title)
  let t := ID3.add t (.TPE1 m.artist)
  let t := ID3.add t (.TALB m.album)
  let t := match m.year with
    | some y => if pyTruthy y then ID3.add (ID3.add t (.TYER y)) (.TDRC y) else t
    | none => t
  let t := match m.track_number with
    | some n =>
        let track_text := toString n ++
          (match m.total_tracks with
           | some tot => "/" ++ toString tot
           | none => "")
        ID3.add t (.TRCK track_text)
    | none => t
  let t := match m.genres with
    | some (g :: _) => ID3.add t (.TCON g)
    | _ => t
  let t := match m.composers with
    | some cs => if cs.isEmpty then t else ID3.add t (.TCOM cs)
    | none => t
  let t := match m.popularity with
    | some p =>
        ID3.add t (.COMM "eng" "Popularity"
          ("Popularity: " ++ toString p ++ "/100"))
    | none => t
  let t := if pyTruthy lyrics then ID3.add t (.USLT "Lyrics" lyrics) else t
  let t := match m.cover_url with
    | some u =>
        if pyTruthy u then
          match cover with
          | some resp =>
              if resp.status == 200 then
                ID3.add t (.APIC "image/jpeg" 3 "Cover" resp.content)
              else t
          | none => t
        else t
    | none => t
  t

/-- Frame-writing sequence of `embed_metadata_memory` (buffer mode,
src/main.py lines 272-312); the source lines are a verbatim duplicate of
the path-mode sequence. -/
def embedFramesMemory (m : Metadata) (lyrics : String) (cover : CoverFetch)
    (t0 : Tags) : Tags :=
  let t := ID3.add t0 (.TIT2 m.title)
  let t := ID3.add t (.TPE1 m.artist)
  let t := ID3.add t (.TALB m.album)
  let t := match m.year with
    | some y => if pyTruthy y then ID3.add (ID3.add t (.TYER y)) (.TDRC y) else t
    | none => t
  let t := match m.track_number with
    | some n =>
        let track_text := toString n ++
          (match m.total_tracks with
           | some tot => "/" ++ toString tot
           | none => "")
        ID3.add t (.TRCK track_text)
    | none => t
  let t := match m.genres with
    | some (g :: _) => ID3.add t (.TCON g)
    | _ => t
  let t := match m.composers with
    | some cs => if cs.isEmpty then t else ID3.add t (.TCOM cs)
    | none => t
  let t := match m.popularity with
    | some p =>
        ID3.add t (.COMM "eng" "Popularity"
          ("Popularity: " ++ toString p ++ "/100"))
    | none => t
  let t := if pyTruthy lyrics then ID3.add t (.USLT "Lyrics" lyrics) else t
  let t := match m.cover_url with
    | some u =>
        if pyTruthy u then
          match cover with
          | some resp =>
              if resp.status == 200 then
                ID3.add t (.APIC "image/jpeg" 3 "Cover" resp.content)
              else t
          | none => t
        else t
    | none => t
  t

/-- An MP3 container as far as tagging is concerned: its tag section, or
`none` when the file carries no ID3 section yet (then `add_tags` creates an
empty one). -/
structure MP3File where
  tags : Option Tags
  deriving Repr

/-- `MP3(...)` parse outcome: the container, or the raised parse
exception. -/
abbrev MP3Parse := Except PyExc MP3File

/-- `embed_metadata` (path mode, src/main.py lines 193-256).  `some t`
means the function returned `True` after saving the file with tag section
`t`; `none` means it caught an exception and returned `False`, leaving the
file unwritten. -/
def embed_metadata (file : MP3Parse) (m : Metadata) (lyrics : String)
    (cover : CoverFetch) : Option Tags :=
  match file with
  | .error _ => none
  | .ok f => some (embedFramesPath m lyrics cover (f.tags.getD []))

/-- `embed_metadata_memory` (buffer mode, src/main.py lines 259-321).
`some t` means the function returned the re-serialized buffer, whose tag
section is `t`; `none` means it caught an exception and returned
`None`. -/
def embed_metadata_memory (file : MP3Parse) (m : Metadata) (lyrics : String)
    (cover : CoverFetch) : Option Tags :=
  match file with
  | .error _ => none
  | .ok f => some (embedFramesMemory m lyrics cover (f.tags.getD []))

/-! ## The Resolver: search_pagalworld -/

/-- Python truthiness of the `audio_url` variable, whose value is either
`None` or a string (`not audio_url` is true for `None` and `""`). -/
def pyFalsy : Option String → Bool
  | none => true
  | some s => !pyTruthy s

/-- The parsed page document, restricted to the element/attribute lookups
src/main.py performs on it.  Element lists are in document order; an
`Option` entry is `none` when the element lacks the attribute. -/
structure Doc where
  /-- text of the `title` element, when the page has one -/
  titleTag : Option String := none
  /-- `src` attribute of each `audio` element (`none` = no `src`) -/
  audioSrcs : List (Option String) := []
  /-- `href` of each `a` element having one (`find_all('a', href=True)`) -/
  hrefs : List String := []
  /-- `src` attribute of each `source` element (`none` = no `src`) -/
  sourceSrcs : List (Option String) := []
  /-- `href` attribute of each element matching `.dbutton a` -/
  dbuttonHrefs : List (Option String) := []
  /-- text of the first `h1` element, when present -/
  h1Text : Option String := none
  /-- text of the first `.songname` element, when present -/
  songnameText : Option String := none
  deriving Repr

/-- Method 1 (src/main.py lines 74-78): the `src` of the first `audio`
element that has a `src` attribute. -/
def method1 (d : Doc) : Option String :=
  d.audioSrcs.findSome? id

/-- Method 2 (lines 81-87): the first hyperlink `href` ending in
`.mp3`. -/
def method2 (d : Doc) : Option String :=
  d.hrefs.find? (fun h => pyEndsWith h ".mp3")

/-- Method 3 (lines 90-95): the `src` of the first `source` element that
has a `src` attribute. -/
def method3 (d : Doc) : Option String :=
  d.sourceSrcs.findSome? id

/-- Method 4 (lines 98-103): the `href` of the first `.dbutton a` element
that has an `href` attribute. -/
def method4 (d : Doc) : Option String :=
  d.dbuttonHrefs.findSome? id

/-- One `if not audio_url:` fallback step: when the current value is falsy
and the method found something, take the found value; otherwise keep the
current value (a loop that finds nothing leaves `audio_url` unchanged). -/
def pyStep (a : Option String) (m : Option String) : Option String :=
  if pyFalsy a then m <|> a else a

/-- The full method-1-to-4 chain of src/main.py lines 71-103 producing the
`audio_url` variable. -/
def findAudioURL (d : Doc) : Option String :=
  let a := method1 d
  let a := pyStep a (method2 d)
  let a := pyStep a (method3 d)
  let a := pyStep a (method4 d)
  a

/-- The four lookup strategies in the priority order the code tries
them. -/
def strategyList : List (Doc → Option String) :=
  [method1, method2, method3, method4]

/-- First strategy result that is non-empty (Python-truthy), in order. -/
def firstTruthy (l : List (Option String)) : Option String :=
  (l.find? (fun o => !pyFalsy o)).join

/-! ### URL resolution (src/main.py lines 108-123) -/

/-- The fields of `urllib.parse.urlparse` the code reads. -/
structure UrlParts where
  scheme : String
  netloc : String
  path : String
  deriving DecidableEq, Repr

/-- Splits a character list at the first `"://"`, giving the part before
and the part after, or `none` when the separator does not occur. -/
def schemeSplit : List Char → Option (List Char × List Char)
  | [] => none
  | ':' :: '/' :: '/' :: rest => some ([], rest)
  | x :: xs => (schemeSplit xs).map (fun p => (x :: p.1, p.2))

/-- Splits a character list at the first `'/'`, which stays with the
second part. -/
def netlocSplit : List Char → List Char × List Char
  | [] => ([], [])
  | '/' :: rest => ([], '/' :: rest)
  | x :: xs =>
    let p := netlocSplit xs
    (x :: p.1, p.2)

/-- `urllib.parse.urlparse`, modelled for the http/https URLs the search
results contain: scheme before `://`, netloc up to the next `/`, path the
rest (query/fragment splitting is not modelled — the code never reads
them).  A string without `://` parses as all-path, scheme and netloc
empty. -/
def urlparse (url : String) : UrlParts :=
  match schemeSplit url.data with
  | none => ⟨"", "", url⟩
  | some (schemeChars, rest) =>
    let p := netlocSplit rest
    ⟨⟨schemeChars⟩, ⟨p.1⟩, ⟨p.2⟩⟩

/-- Relative-to-absolute audio URL conversion, src/main.py lines 108-123,
given the parsed page URL: absolute URLs pass through; a leading-slash
reference is rooted at scheme://netloc; otherwise the last path segment is
dropped when it contains a dot (a filename), and the reference appended. -/
def resolveAudioURL (audio_url : String) (base : UrlParts) : String :=
  if pyStartsWith audio_url "http://" || pyStartsWith audio_url "https://" then
    audio_url
  else
    let base_domain := base.scheme ++ "://" ++ base.netloc
    if pyStartsWith audio_url "/" then
      base_domain ++ audio_url
    else
      let path_parts := pySplitSlash base.path
      let path_parts :=
        if pyContainsChar (path_parts.getLastD "") '.' then path_parts.dropLast
        else path_parts
      let base_path := pyJoinSlash path_parts
      base_domain ++ base_path ++ "/" ++ audio_url

/-! ### The Resolver body and its exception boundary -/

/-- The fallible collaborators `search_pagalworld` calls: the google
search (line 52) and the page fetch + parse (lines 61-65; a non-2xx
status raised by `raise_for_status` is an `Except.error` here). -/
structure ResolverEnv where
  searchResults : Except PyExc (List String)
  page : Except PyExc Doc

/-- The triple `(audio_url, page_url, title)` the function returns. -/
abbrev SearchResult := Option String × Option String × Option String

/-- Body of the `try:` block of `search_pagalworld` (src/main.py lines
50-129). -/
def searchBody (query : String) (env : ResolverEnv) :
    Except PyExc SearchResult := do
  let search_results ← env.searchResults
  match search_results with
  | [] => pure (none, none, none)
  | page_url :: _ =>
    let doc ← env.page
    let audio_url := findAudioURL doc
    if pyFalsy audio_url then
      pure (none, some page_url, none)
    else
      let a := resolveAudioURL (audio_url.getD "") (urlparse page_url)
      let title :=
        match doc.titleTag <|> doc.h1Text <|> doc.songnameText with
        | some t => pyStrip t
        | none => query
      pure (some a, some page_url, some title)

/-- `search_pagalworld` (src/main.py lines 39-133): the body with its
enclosing `except Exception` handler, which converts any raised exception
to the all-absent triple (lines 131-133). -/
def search_pagalworld (query : String) (env : ResolverEnv) : SearchResult :=
  match searchBody query env with
  | .ok r => r
  | .error _ => (none, none, none)

/-! ## The Spotify metadata lookup (src/main.py lines 154-191) -/

/-- The provider record fields `get_complete_spotify_metadata` reads from
`sp.track(track_id)` before the failing line. -/
structure SpotifyTrack where
  name : String
  artist0Name : String
  albumName : String
  releaseDate : String
  albumImages : List String
  trackNumber : Int
  discNumber : Int
  deriving Repr

/-- Audio-features record (`sp.audio_features`); its fields are only read
after the failing line, so their content is irrelevant. -/
structure AudioFeatures where
  tempo : Option Int
  key : Option Int
  deriving Repr

/-- The metadata dict the function is written to return (never reached). -/
structure SpotifyMetadata where
  title : String
  artist : String
  album : String
  year : String
  deriving Repr

/-- The local names bound in `get_complete_spotify_metadata` when the
metadata dict literal starts evaluating (line 166): the parameter and the
two fetch results.  `album` and `artist` are not among them. -/
def spotifyLocalNames : List String := ["track_id", "track", "audio_features"]

/-- Python name lookup in that scope: an unbound name raises NameError. -/
def lookupLocal (n : String) : Except PyExc Unit :=
  if spotifyLocalNames.contains n then .ok () else .error (.nameError n)

/-- Body of the `try:` block of `get_complete_spotify_metadata`
(src/main.py lines 156-187).  The dict literal evaluates its entries in
order; the entry at line 174 reads the name `album` and the one at line
175 reads `artist`, neither of which is bound in the function's scope. -/
def spotifyBody (trackFetch : Except PyExc SpotifyTrack)
    (featuresFetch : Except PyExc AudioFeatures) :
    Except PyExc SpotifyMetadata := do
  let track ← trackFetch
  let _audio_features ← featuresFetch
  let _ ← lookupLocal "album"
  let _ ← lookupLocal "artist"
  pure { title := track.name, artist := track.artist0Name,
         album := track.albumName, year := track.releaseDate.take 4 }

/-- `get_complete_spotify_metadata` (src/main.py lines 154-191): the body
with its `except Exception` handler returning `None` (lines 189-191). -/
def get_complete_spotify_metadata (trackFetch : Except PyExc SpotifyTrack)
    (featuresFetch : Except PyExc AudioFeatures) : Option SpotifyMetadata :=
  match spotifyBody trackFetch featuresFetch with
  | .ok m => some m
  | .error _ => none

/-! ## Spec-side URL resolution rules (for comparison with the code) -/

/-- The last `/`-separated segment of a path (Python `path.split('/')[-1]`,
with `""` for an empty split list, which cannot occur). -/
def lastSegment (p : String) : String :=
  (pySplitSlash p).getLastD ""

/-- The path with its last `/`-separated segment removed. -/
def stripLastSegment (p : String) : String :=
  pyJoinSlash ((pySplitSlash p).dropLast)

/-- Modelled from the claim's words: relative-reference resolution in which
a leading-slash reference roots at scheme://host and any other reference is
resolved against the page path with the last path segment stripped
unconditionally. -/
def claimedResolveAudioURL (audio_url : String) (base : UrlParts) : String :=
  if pyStartsWith audio_url "http://" || pyStartsWith audio_url "https://" then
    audio_url
  else if pyStartsWith audio_url "/" then
    base.scheme ++ "://" ++ base.netloc ++ audio_url
  else
    base.scheme ++ "://" ++ base.netloc ++ stripLastSegment base.path
      ++ "/" ++ audio_url

/-- Modelled from the amended claim's words: as above, but the last path
segment is stripped only when it contains a dot (a filename segment);
otherwise the reference is appended after the full page path. -/
def amendedResolveAudioURL (audio_url : String) (base : UrlParts) : String :=
  if pyStartsWith audio_url "http://" || pyStartsWith audio_url "https://" then
    audio_url
  else if pyStartsWith audio_url "/" then
    base.scheme ++ "://" ++ base.netloc ++ audio_url
  else
    base.scheme ++ "://" ++ base.netloc ++
      (if pyContainsChar (lastSegment base.path) '.' then
        stripLastSegment base.path
      else base.path) ++ "/" ++ audio_url

/-! ## Helper lemmas on the ID3 dictionary -/

namespace ID3

/-- `find?` is unchanged by filtering with a predicate implied by the
search predicate. -/
theorem find?_filter_of_imp (t : List Frame) (p q : Frame → Bool)
    (h : ∀ x, p x = true → q x = true) :
    (t.filter q).find? p = t.find? p := by
  induction t with
  | nil => rfl
  | cons g t ih =>
    by_cases hq : q g = true
    · by_cases hp : p g = true
      · simp [List.filter_cons, List.find?_cons, hq, hp]
      · simp only [List.filter_cons, hq, if_pos]
        simp [List.find?_cons, hp, ih]
    · have hp : p g = false := by
        cases hpg : p g with
        | false => rfl
        | true => exact absurd (h g hpg) hq
      simp [List.filter_cons, List.find?_cons, hq, hp, ih]

/-- `countP` is unchanged by filtering with a predicate implied by the
counting predicate. -/
theorem countP_filter_of_imp (t : List Frame) (p q : Frame → Bool)
    (h : ∀ x, p x = true → q x = true) :
    (t.filter q).countP p = t.countP p := by
  induction t with
  | nil => rfl
  | cons g t ih =>
    by_cases hq : q g = true
    · simp [List.filter_cons, List.countP_cons, hq, ih]
    · have hp : p g = false := by
        cases hpg : p g with
        | false => rfl
        | true => exact absurd (h g hpg) hq
      simp [List.filter_cons, List.countP_cons, hq, hp, ih]

theorem getKey_add (t : Tags) (f : Frame) (k : HashKey) :
    getKey (add t f) k = if k = f.hashKey then some f else getKey t k := by
  simp only [getKey, add, List.find?_append]
  by_cases hk : k = f.hashKey
  · subst hk
    have hnone : (t.filter (fun g => g.hashKey != f.hashKey)).find?
        (fun g => g.hashKey == f.hashKey) = none := by
      rw [List.find?_eq_none]
      intro g hg
      have := (List.mem_filter.mp hg).2
      simpa using this
    simp [hnone, List.find?_cons]
  · have hf : ((f.hashKey == k) : Bool) = false := by
      rw [beq_eq_false_iff_ne]
      exact fun h => hk h.symm
    have himp : ∀ x : Frame, (x.hashKey == k) = true →
        (x.hashKey != f.hashKey) = true := by
      intro x hx
      rw [beq_iff_eq] at hx
      rw [bne_iff_ne, hx]
      exact hk
    rw [find?_filter_of_imp t _ _ himp]
    simp only [List.find?_cons, hf, if_neg hk]
    cases t.find? (fun g => g.hashKey == k) <;> simp [Option.or]

theorem mem_add_iff (t : Tags) (f g : Frame) :
    g ∈ add t f ↔ (g ∈ t ∧ g.hashKey ≠ f.hashKey) ∨ g = f := by
  simp only [add, List.mem_append, List.mem_filter, bne_iff_ne,
    List.mem_singleton]

theorem mem_add_of_ne (t : Tags) (f g : Frame) (hg : g ∈ t)
    (hne : g.hashKey ≠ f.hashKey) : g ∈ add t f :=
  (mem_add_iff t f g).mpr (.inl ⟨hg, hne⟩)

theorem mem_addAll_of_ne (t : Tags) (l : List Frame) (g : Frame) (hg : g ∈ t)
    (hne : ∀ f ∈ l, g.hashKey ≠ f.hashKey) : g ∈ addAll t l := by
  induction l generalizing t with
  | nil => exact hg
  | cons f l ih =>
    exact ih (add t f)
      (mem_add_of_ne t f g hg (hne f (List.mem_cons_self f l)))
      (fun g2 hg2 => hne g2 (List.mem_cons_of_mem f hg2))

theorem mem_addAll_cases (t : Tags) (l : List Frame) (g : Frame)
    (hg : g ∈ addAll t l) : g ∈ t ∨ g ∈ l := by
  induction l generalizing t with
  | nil => exact .inl hg
  | cons f l ih =>
    rcases ih (add t f) hg with h | h
    · rcases (mem_add_iff t f g).mp h with ⟨h1, _⟩ | h1
      · exact .inl h1
      · exact .inr (h1 ▸ List.mem_cons_self f l)
    · exact .inr (List.mem_cons_of_mem f h)

theorem addAll_append (t : Tags) (l1 l2 : List Frame) :
    addAll t (l1 ++ l2) = addAll (addAll t l1) l2 := by
  simp [addAll, List.foldl_append]

/-- A frame stored under an `apic` key is an APIC frame. -/
theorem hashKey_apic (f : Frame) (d : String) (h : f.hashKey = .apic d) :
    ∃ mime ptype data, f = .APIC mime ptype d data := by
  cases f <;> simp_all [Frame.hashKey]

/-- Frames with equal hash keys agree on being pictures. -/
theorem isPicture_of_hashKey_eq (f g : Frame) (h : g.hashKey = f.hashKey) :
    g.isPicture = f.isPicture := by
  cases f <;> cases g <;> simp_all [Frame.hashKey, Frame.isPicture]

theorem countP_picture_add (t : Tags) (f : Frame)
    (hf : f.isPicture = false) :
    (add t f).countP Frame.isPicture = t.countP Frame.isPicture := by
  simp only [add, List.countP_append]
  have h1 : List.countP Frame.isPicture [f] = 0 := by
    simp [List.countP_cons, hf]
  rw [h1, Nat.add_zero]
  exact countP_filter_of_imp t _ _ (fun x hx => by
    simp only [bne_iff_ne]
    intro hkey
    rw [isPicture_of_hashKey_eq f x hkey, hf] at hx
    exact Bool.false_ne_true hx)

theorem countP_picture_addAll (t : Tags) (l : List Frame)
    (hl : ∀ f ∈ l, f.isPicture = false) :
    (addAll t l).countP Frame.isPicture = t.countP Frame.isPicture := by
  induction l generalizing t with
  | nil => rfl
  | cons f l ih =>
    rw [addAll, List.foldl_cons, ← addAll]
    rw [ih (add t f) (fun g2 hg2 => hl g2 (List.mem_cons_of_mem f hg2))]
    exact countP_picture_add t f (hl f (List.mem_cons_self f l))

/-- After an `add`, exactly one frame carries the added frame's key. -/
theorem countP_key_add_self (t : Tags) (f : Frame) :
    (add t f).countP (fun g => g.hashKey == f.hashKey) = 1 := by
  simp only [add, List.countP_append]
  have h1 : List.countP (fun g => g.hashKey == f.hashKey) [f] = 1 := by
    simp [List.countP_cons]
  have h0 :
      (t.filter (fun g => g.hashKey != f.hashKey)).countP
        (fun g => g.hashKey == f.hashKey) = 0 := by
    rw [List.countP_eq_zero]
    intro g hg
    have := (List.mem_filter.mp hg).2
    simpa using this
  rw [h0, h1]

theorem countP_key_add_other (t : Tags) (f : Frame) (k : HashKey)
    (hk : k ≠ f.hashKey) :
    (add t f).countP (fun g => g.hashKey == k) =
      t.countP (fun g => g.hashKey == k) := by
  simp only [add, List.countP_append]
  have h1 : List.countP (fun g => g.hashKey == k) [f] = 0 := by
    have hkf : ((f.hashKey == k) : Bool) = false := by
      rw [beq_eq_false_iff_ne]
      exact fun h => hk h.symm
    simp [List.countP_cons, hkf]
  rw [h1, Nat.add_zero]
  exact countP_filter_of_imp t _ _ (fun x hx => by
    rw [beq_iff_eq] at hx
    rw [bne_iff_ne, hx]
    exact hk)

end ID3

/-! ## The embed pipeline as a frame list -/

/-- The sequence of frames the embed code adds, as a list determined by the
metadata record, the lyrics and the cover-fetch outcome. -/
def embedFrameList (m : Metadata) (lyrics : String) (cover : CoverFetch) :
    List Frame :=
  [.TIT2 m.title, .TPE1 m.artist, .TALB m.album]
  ++ (match m.year with
      | some y => if pyTruthy y then [.TYER y, .TDRC y] else []
      | none => [])
  ++ (match m.track_number with
      | some n =>
          [.TRCK (toString n ++
            (match m.total_tracks with
             | some tot => "/" ++ toString tot
             | none => ""))]
      | none => [])
  ++ (match m.genres with
      | some (g :: _) => [.TCON g]
      | _ => [])
  ++ (match m.composers with
      | some cs => if cs.isEmpty then [] else [.TCOM cs]
      | none => [])
  ++ (match m.popularity with
      | some p =>
          [.COMM "eng" "Popularity" ("Popularity: " ++ toString p ++ "/100")]
      | none => [])
  ++ (if pyTruthy lyrics then [.USLT "Lyrics" lyrics] else [])
  ++ (match m.cover_url with
      | some u =>
          if pyTruthy u then
            match cover with
            | some resp =>
                if resp.status == 200 then
                  [.APIC "image/jpeg" 3 "Cover" resp.content]
                else []
            | none => []
          else []
      | none => [])

/-- The year block (lines 209-211 / 277-279) as an `addAll` segment. -/
theorem embedSeg_year (yr : Option String) (t : Tags) :
    (match yr with
     | some y =>
         if pyTruthy y then ID3.add (ID3.add t (.TYER y)) (.TDRC y) else t
     | none => t) =
    ID3.addAll t
      (match yr with
       | some y => if pyTruthy y then [.TYER y, .TDRC y] else []
       | none => []) := by
  rcases yr with _ | y
  · rfl
  · by_cases h : pyTruthy y <;> simp [h, ID3.addAll]

/-- The track block (lines 214-218 / 281-285) as an `addAll` segment. -/
theorem embedSeg_track (tn tt : Option Int) (t : Tags) :
    (match tn with
     | some n =>
         ID3.add t (.TRCK (toString n ++
           (match tt with
            | some tot => "/" ++ toString tot
            | none => "")))
     | none => t) =
    ID3.addAll t
      (match tn with
       | some n =>
           [.TRCK (toString n ++
             (match tt with
              | some tot => "/" ++ toString tot
              | none => ""))]
       | none => []) := by
  rcases tn with _ | n <;> rfl

/-- The genre block (lines 221-222 / 287-288) as an `addAll` segment. -/
theorem embedSeg_genre (gs : Option (List String)) (t : Tags) :
    (match gs with
     | some (g :: _) => ID3.add t (.TCON g)
     | _ => t) =
    ID3.addAll t
      (match gs with
       | some (g :: _) => [.TCON g]
       | _ => []) := by
  rcases gs with _ | ⟨_ | ⟨g, gtl⟩⟩ <;> rfl

/-- The composer block (lines 225-226 / 290-291) as an `addAll` segment. -/
theorem embedSeg_comp (cs : Option (List String)) (t : Tags) :
    (match cs with
     | some cl => if cl.isEmpty then t else ID3.add t (.TCOM cl)
     | none => t) =
    ID3.addAll t
      (match cs with
       | some cl => if cl.isEmpty then [] else [.TCOM cl]
       | none => []) := by
  rcases cs with _ | cl
  · rfl
  · by_cases h : cl.isEmpty <;> simp [h, ID3.addAll]

/-- The popularity block (lines 229-231 / 293-295) as an `addAll`
segment. -/
theorem embedSeg_pop (pop : Option Int) (t : Tags) :
    (match pop with
     | some p =>
         ID3.add t (.COMM "eng" "Popularity"
           ("Popularity: " ++ toString p ++ "/100"))
     | none => t) =
    ID3.addAll t
      (match pop with
       | some p =>
           [.COMM "eng" "Popularity"
             ("Popularity: " ++ toString p ++ "/100")]
       | none => []) := by
  rcases pop with _ | p <;> rfl

/-- The lyrics block (lines 234-235 / 297-298) as an `addAll` segment. -/
theorem embedSeg_lyrics (lyrics : String) (t : Tags) :
    (if pyTruthy lyrics then ID3.add t (.USLT "Lyrics" lyrics) else t) =
    ID3.addAll t
      (if pyTruthy lyrics then [.USLT "Lyrics" lyrics] else []) := by
  by_cases h : pyTruthy lyrics <;> simp [h, ID3.addAll]

/-- The cover block (lines 238-250 / 300-312) as an `addAll` segment. -/
theorem embedSeg_cover (cu : Option String) (cover : CoverFetch) (t : Tags) :
    (match cu with
     | some u =>
         if pyTruthy u then
           match cover with
           | some resp =>
               if resp.status == 200 then
                 ID3.add t (.APIC "image/jpeg" 3 "Cover" resp.content)
               else t
           | none => t
         else t
     | none => t) =
    ID3.addAll t
      (match cu with
       | some u =>
           if pyTruthy u then
             match cover with
             | some resp =>
                 if resp.status == 200 then
                   [.APIC "image/jpeg" 3 "Cover" resp.content]
                 else []
             | none => []
           else []
       | none => []) := by
  rcases cu with _ | u
  · rfl
  · by_cases hu : pyTruthy u
    · rcases cover with _ | resp
      · simp [hu, ID3.addAll]
      · by_cases hs : resp.status == 200 <;> simp [hu, hs, ID3.addAll]
    · simp [hu, ID3.addAll]

theorem embedFramesPath_eq_addAll (m : Metadata) (lyrics : String)
    (cover : CoverFetch) (t0 : Tags) :
    embedFramesPath m lyrics cover t0 =
      ID3.addAll t0 (embedFrameList m lyrics cover) := by
  simp only [embedFramesPath, embedFrameList, ID3.addAll_append]
  rw [embedSeg_year, embedSeg_track, embedSeg_genre, embedSeg_comp,
    embedSeg_pop, embedSeg_lyrics, embedSeg_cover]
  rfl

theorem embedFramesMemory_eq_addAll (m : Metadata) (lyrics : String)
    (cover : CoverFetch) (t0 : Tags) :
    embedFramesMemory m lyrics cover t0 =
      ID3.addAll t0 (embedFrameList m lyrics cover) := by
  have h : embedFramesMemory m lyrics cover t0 =
      embedFramesPath m lyrics cover t0 := rfl
  rw [h, embedFramesPath_eq_addAll]

/-- A back-cover frame is a picture frame. -/
theorem isPicture_of_isBackCover (f : Frame) (h : f.isBackCover = true) :
    f.isPicture = true := by
  cases f <;> simp_all [Frame.isBackCover, Frame.isPicture]

/-- A picture frame is stored under an `apic` key. -/
theorem picture_hashKey (f : Frame) (h : f.isPicture = true) :
    ∃ d, f.hashKey = HashKey.apic d := by
  cases f <;> simp_all [Frame.isPicture, Frame.hashKey]

/-- The only picture frame the embed pipeline ever adds is the single
front-cover APIC frame, and only when the cover URL is present and truthy
and the fetch returned status 200. -/
theorem embedFrameList_picture (m : Metadata) (lyrics : String)
    (cover : CoverFetch) (f : Frame) (hf : f ∈ embedFrameList m lyrics cover)
    (hpic : f.isPicture = true) :
    ∃ u resp, m.cover_url = some u ∧ pyTruthy u = true ∧
      cover = some resp ∧ resp.status = 200 ∧
      f = .APIC "image/jpeg" 3 "Cover" resp.content := by
  simp only [embedFrameList, List.append_assoc, List.mem_append] at hf
  rcases hf with hf | hf | hf | hf | hf | hf | hf | hf
  · simp only [List.mem_cons, List.not_mem_nil, or_false] at hf
    rcases hf with rfl | rfl | rfl <;> simp [Frame.isPicture] at hpic
  · rcases hy : m.year with _ | y <;> rw [hy] at hf
    · simp at hf
    · by_cases ht : pyTruthy y <;> simp [ht] at hf
      rcases hf with rfl | rfl <;> simp [Frame.isPicture] at hpic
  · rcases hn : m.track_number with _ | n <;> rw [hn] at hf
    · simp at hf
    · simp at hf
      subst hf; simp [Frame.isPicture] at hpic
  · rcases hg : m.genres with _ | ⟨_ | ⟨g, gtl⟩⟩ <;> rw [hg] at hf <;>
      simp at hf
    subst hf; simp [Frame.isPicture] at hpic
  · rcases hc : m.composers with _ | cl <;> rw [hc] at hf
    · simp at hf
    · by_cases he : cl.isEmpty <;> simp [he] at hf
      subst hf; simp [Frame.isPicture] at hpic
  · rcases hp : m.popularity with _ | p <;> rw [hp] at hf <;> simp at hf
    subst hf; simp [Frame.isPicture] at hpic
  · by_cases hl : pyTruthy lyrics <;> simp [hl] at hf
    subst hf; simp [Frame.isPicture] at hpic
  · rcases hcu : m.cover_url with _ | u <;> rw [hcu] at hf
    · simp at hf
    · by_cases hu : pyTruthy u <;> simp [hu] at hf
      rcases hcov : cover with _ | resp <;> rw [hcov] at hf
      · simp at hf
      · simp at hf
        obtain ⟨hs200, rfl⟩ := hf
        exact ⟨u, resp, rfl, hu, rfl, hs200, rfl⟩

/-- Every frame the embed pipeline adds under an `apic` key has
descriptor `Cover`. -/
theorem embedFrameList_apic_desc (m : Metadata) (lyrics : String)
    (cover : CoverFetch) (f : Frame) (hf : f ∈ embedFrameList m lyrics cover)
    (d : String) (hd : f.hashKey = .apic d) : d = "Cover" := by
  obtain ⟨mime, ptype, data, rfl⟩ := ID3.hashKey_apic f d hd
  obtain ⟨u, resp, _, _, _, _, heq⟩ :=
    embedFrameList_picture m lyrics cover _ hf (by simp [Frame.isPicture])
  cases heq
  rfl

/-! ## Claim theorems: the Tagger -/

/-- C5: for every container parse outcome, metadata record, lyrics string
and cover-fetch outcome, path-mode `embed_metadata` and buffer-mode
`embed_metadata_memory` have identical semantics: same success or failure,
and the same resulting tag frames, differing only in how the result is
persisted. -/
theorem embed_modes_equivalent (file : MP3Parse) (m : Metadata)
    (lyrics : String) (cover : CoverFetch) :
    embed_metadata file m lyrics cover =
      embed_metadata_memory file m lyrics cover := by
  cases file <;> rfl

/-- C8: on bytes that do not parse as a valid audio container, Embed
reports failure (False in path mode, None in buffer mode) and produces no
output and no tag state. -/
theorem embed_parse_failure (e : PyExc) (m : Metadata) (lyrics : String)
    (cover : CoverFetch) :
    embed_metadata (.error e) m lyrics cover = none ∧
      embed_metadata_memory (.error e) m lyrics cover = none :=
  ⟨rfl, rfl⟩

/-- C6: on every valid container, Embed with the full record
title="T", artist="A", album="B", year="2013", trackNumber=4,
totalTracks=10 produces, in both modes, a tag section whose title, artist
and album frames read back exactly, whose year is written as both a legacy
TYER and a modern TDRC frame reading "2013", and whose track frame reads
"4/10". -/
theorem embed_full_record_readback (f : MP3File) (lyrics : String)
    (cover : CoverFetch) :
    ∃ t : Tags,
      embed_metadata (.ok f)
        { title := "T", artist := "A", album := "B", year := some "2013",
          track_number := some 4, total_tracks := some 10 } lyrics cover
        = some t ∧
      embed_metadata_memory (.ok f)
        { title := "T", artist := "A", album := "B", year := some "2013",
          track_number := some 4, total_tracks := some 10 } lyrics cover
        = some t ∧
      ID3.getKey t .tit2 = some (.TIT2 "T") ∧
      ID3.getKey t .tpe1 = some (.TPE1 "A") ∧
      ID3.getKey t .talb = some (.TALB "B") ∧
      ID3.getKey t .tyer = some (.TYER "2013") ∧
      ID3.getKey t .tdrc = some (.TDRC "2013") ∧
      ID3.getKey t .trck = some (.TRCK "4/10") := by
  refine ⟨embedFramesPath
    { title := "T", artist := "A", album := "B", year := some "2013",
      track_number := some 4, total_tracks := some 10 } lyrics cover
    (f.tags.getD []), rfl, rfl, ?_⟩
  rw [embedFramesPath_eq_addAll]
  have hlist : embedFrameList
      { title := "T", artist := "A", album := "B", year := some "2013",
        track_number := some 4, total_tracks := some 10 } lyrics cover
      = [.TIT2 "T", .TPE1 "A", .TALB "B", .TYER "2013", .TDRC "2013",
         .TRCK "4/10"]
        ++ (if pyTruthy lyrics then [.USLT "Lyrics" lyrics] else []) := by
    have hy : pyTruthy "2013" = true := by decide
    have htxt : (toString (4 : Int) ++ ("/" ++ toString (10 : Int)))
        = "4/10" := by decide
    simp [embedFrameList, hy, htxt]
  rw [hlist, ID3.addAll_append]
  by_cases hl : pyTruthy lyrics <;>
    simp [hl, ID3.addAll, List.foldl, ID3.getKey_add, Frame.hashKey]

/-- C4: when the cover URL is present but its fetch fails (raised network
exception, or a non-2xx status), Embed in both modes still succeeds, adds
no picture frame, and writes all other requested frames exactly as it
would with no cover URL at all. -/
theorem embed_cover_fetch_failure (f : MP3File) (m : Metadata)
    (lyrics : String) (cover : CoverFetch) (u : String)
    (hcu : m.cover_url = some u) (hu : pyTruthy u = true)
    (hfail : cover = none ∨
      ∃ resp, cover = some resp ∧
        ¬(200 ≤ resp.status ∧ resp.status ≤ 299)) :
    (embed_metadata (.ok f) m lyrics cover).isSome = true ∧
    (embed_metadata_memory (.ok f) m lyrics cover).isSome = true ∧
    embed_metadata (.ok f) m lyrics cover =
      embed_metadata (.ok f) { m with cover_url := none } lyrics none ∧
    embed_metadata_memory (.ok f) m lyrics cover =
      embed_metadata_memory (.ok f) { m with cover_url := none } lyrics
        none ∧
    (embedFramesPath m lyrics cover (f.tags.getD [])).countP Frame.isPicture
      = (f.tags.getD []).countP Frame.isPicture ∧
    (embedFramesMemory m lyrics cover (f.tags.getD [])).countP
        Frame.isPicture
      = (f.tags.getD []).countP Frame.isPicture := by
  have hstat : ∀ resp : CoverResp, cover = some resp →
      ((resp.status == 200) : Bool) = false := by
    intro resp hresp
    subst hresp
    rcases hfail with h | ⟨resp2, hresp2, hr⟩
    · exact Option.noConfusion h
    · obtain rfl : resp = resp2 := by injection hresp2
      have hne : resp.status ≠ 200 := fun h200 => hr (by omega)
      simp [hne]
  have hlist : embedFrameList m lyrics cover =
      embedFrameList { m with cover_url := none } lyrics none := by
    have h8 : (match ({ m with cover_url := none } : Metadata).cover_url with
        | some u2 =>
            if pyTruthy u2 then
              match (none : CoverFetch) with
              | some resp =>
                  if resp.status == 200 then
                    [Frame.APIC "image/jpeg" 3 "Cover" resp.content]
                  else []
              | none => []
            else []
        | none => ([] : List Frame)) = [] := rfl
    rcases hfail with rfl | ⟨resp, rfl, hr⟩
    · simp [embedFrameList, hcu, hu]
    · have hne : ((resp.status == 200) : Bool) = false := hstat resp rfl
      simp [embedFrameList, hcu, hu, hne]
  have hpics : ∀ fr ∈ embedFrameList m lyrics cover,
      fr.isPicture = false := by
    intro fr hfr
    cases hpic : fr.isPicture with
    | false => rfl
    | true =>
      obtain ⟨u2, resp, _, _, hcov, hs200, _⟩ :=
        embedFrameList_picture m lyrics cover fr hfr hpic
      have := hstat resp hcov
      simp [hs200] at this
  refine ⟨rfl, rfl, ?_, ?_, ?_, ?_⟩
  · show some (embedFramesPath m lyrics cover (f.tags.getD [])) = _
    rw [embedFramesPath_eq_addAll, hlist, ← embedFramesPath_eq_addAll]
    rfl
  · show some (embedFramesMemory m lyrics cover (f.tags.getD [])) = _
    rw [embedFramesMemory_eq_addAll, hlist, ← embedFramesMemory_eq_addAll]
    rfl
  · rw [embedFramesPath_eq_addAll]
    exact ID3.countP_picture_addAll _ _ hpics
  · rw [embedFramesMemory_eq_addAll]
    exact ID3.countP_picture_addAll _ _ hpics

/-- Witness for C4 at a concrete input: a record with a cover URL whose
fetch returns status 404. -/
theorem embed_cover_fetch_failure_witness :
    (({ title := "T", artist := "A", album := "B",
        cover_url := some "http://img.example/c.jpg" } : Metadata).cover_url
      = some "http://img.example/c.jpg") ∧
    pyTruthy "http://img.example/c.jpg" = true ∧
    ((some ⟨404, []⟩ : CoverFetch) = none ∨
      ∃ resp, (some ⟨404, []⟩ : CoverFetch) = some resp ∧
        ¬(200 ≤ resp.status ∧ resp.status ≤ 299)) ∧
    ((embed_metadata (.ok ⟨some []⟩)
        { title := "T", artist := "A", album := "B",
          cover_url := some "http://img.example/c.jpg" } "lyr"
        (some ⟨404, []⟩)).isSome = true ∧
     (embed_metadata_memory (.ok ⟨some []⟩)
        { title := "T", artist := "A", album := "B",
          cover_url := some "http://img.example/c.jpg" } "lyr"
        (some ⟨404, []⟩)).isSome = true ∧
     embed_metadata (.ok ⟨some []⟩)
        { title := "T", artist := "A", album := "B",
          cover_url := some "http://img.example/c.jpg" } "lyr"
        (some ⟨404, []⟩) =
      embed_metadata (.ok ⟨some []⟩)
        { title := "T", artist := "A", album := "B" } "lyr" none ∧
     embed_metadata_memory (.ok ⟨some []⟩)
        { title := "T", artist := "A", album := "B",
          cover_url := some "http://img.example/c.jpg" } "lyr"
        (some ⟨404, []⟩) =
      embed_metadata_memory (.ok ⟨some []⟩)
        { title := "T", artist := "A", album := "B" } "lyr" none ∧
     (embedFramesPath
        { title := "T", artist := "A", album := "B",
          cover_url := some "http://img.example/c.jpg" } "lyr"
        (some ⟨404, []⟩)
        ((⟨some []⟩ : MP3File).tags.getD [])).countP Frame.isPicture
      = (((⟨some []⟩ : MP3File).tags.getD []) : Tags).countP
          Frame.isPicture ∧
     (embedFramesMemory
        { title := "T", artist := "A", album := "B",
          cover_url := some "http://img.example/c.jpg" } "lyr"
        (some ⟨404, []⟩)
        ((⟨some []⟩ : MP3File).tags.getD [])).countP Frame.isPicture
      = (((⟨some []⟩ : MP3File).tags.getD []) : Tags).countP
          Frame.isPicture) :=
  ⟨rfl, by decide,
   Or.inr ⟨⟨404, []⟩, rfl, by decide⟩,
   embed_cover_fetch_failure ⟨some []⟩
     { title := "T", artist := "A", album := "B",
       cover_url := some "http://img.example/c.jpg" } "lyr"
     (some ⟨404, []⟩) "http://img.example/c.jpg" rfl (by decide)
     (Or.inr ⟨⟨404, []⟩, rfl, by decide⟩)⟩

/-- C1 counterexample: re-tagging a container that already holds a picture
frame with descriptor "Old", with a successful cover fetch, leaves the
stale picture frame in place and adds no "back cover" frame — the claim's
removal of every pre-existing picture frame and insertion of a back-cover
frame both fail on this input. -/
theorem embed_cover_stale_counterexample :
    embed_metadata_memory (.ok ⟨some [.APIC "image/png" 3 "Old" [9]]⟩)
      { title := "T", artist := "A", album := "B",
        cover_url := some "http://img.example/c.jpg" } ""
      (some ⟨200, [1, 2]⟩)
    = some [.APIC "image/png" 3 "Old" [9], .TIT2 "T", .TPE1 "A", .TALB "B",
        .APIC "image/jpeg" 3 "Cover" [1, 2]]
    ∧ (Frame.APIC "image/png" 3 "Old" [9]).isPicture = true
    ∧ List.countP Frame.isBackCover
        [Frame.APIC "image/png" 3 "Old" [9], .TIT2 "T", .TPE1 "A",
         .TALB "B", .APIC "image/jpeg" 3 "Cover" [1, 2]] = 0 := by
  refine ⟨?_, by decide, by decide⟩
  decide

/-- C1 (amended): when the cover URL is present and truthy and the fetch
returns status 200, Embed (both modes produce the same tag section) adds a
single front-cover APIC frame with descriptor "Cover" carrying the fetched
bytes, replacing only a previous frame stored under that same key; it does
not remove other pre-existing picture frames, and it never adds a
back-cover frame. -/
theorem embed_cover_replace_amended (t0 : Tags) (m : Metadata)
    (lyrics : String) (u : String) (resp : CoverResp)
    (hcu : m.cover_url = some u) (hu : pyTruthy u = true)
    (hs : resp.status = 200) :
    embed_metadata (.ok ⟨some t0⟩) m lyrics (some resp)
      = some (embedFramesPath m lyrics (some resp) t0) ∧
    embed_metadata_memory (.ok ⟨some t0⟩) m lyrics (some resp)
      = some (embedFramesMemory m lyrics (some resp) t0) ∧
    embedFramesPath m lyrics (some resp) t0
      = embedFramesMemory m lyrics (some resp) t0 ∧
    ID3.getKey (embedFramesMemory m lyrics (some resp) t0) (.apic "Cover")
      = some (.APIC "image/jpeg" 3 "Cover" resp.content) ∧
    (embedFramesMemory m lyrics (some resp) t0).countP
      (fun g => g.hashKey == HashKey.apic "Cover") = 1 ∧
    (∀ g ∈ t0, g.isPicture = true → g.hashKey ≠ .apic "Cover" →
      g ∈ embedFramesMemory m lyrics (some resp) t0) ∧
    (∀ g ∈ embedFramesMemory m lyrics (some resp) t0,
      g.isBackCover = true → g ∈ t0) := by
  have hsplit : ∃ pref : List Frame,
      embedFrameList m lyrics (some resp)
        = pref ++ [.APIC "image/jpeg" 3 "Cover" resp.content] := by
    refine ⟨[.TIT2 m.title, .TPE1 m.artist, .TALB m.album]
      ++ (match m.year with
          | some y => if pyTruthy y then [.TYER y, .TDRC y] else []
          | none => [])
      ++ (match m.track_number with
          | some n =>
              [.TRCK (toString n ++
                (match m.total_tracks with
                 | some tot => "/" ++ toString tot
                 | none => ""))]
          | none => [])
      ++ (match m.genres with
          | some (g :: _) => [.TCON g]
          | _ => [])
      ++ (match m.composers with
          | some cs => if cs.isEmpty then [] else [.TCOM cs]
          | none => [])
      ++ (match m.popularity with
          | some p =>
              [.COMM "eng" "Popularity"
                ("Popularity: " ++ toString p ++ "/100")]
          | none => [])
      ++ (if pyTruthy lyrics then [.USLT "Lyrics" lyrics] else []), ?_⟩
    simp [embedFrameList, hcu, hu, hs]
  obtain ⟨pref, hsplit⟩ := hsplit
  have hmem : embedFramesMemory m lyrics (some resp) t0
      = ID3.add (ID3.addAll t0 pref)
          (.APIC "image/jpeg" 3 "Cover" resp.content) := by
    rw [embedFramesMemory_eq_addAll, hsplit, ID3.addAll_append]
    rfl
  refine ⟨rfl, rfl, rfl, ?_, ?_, ?_, ?_⟩
  · rw [hmem, ID3.getKey_add]
    simp [Frame.hashKey]
  · have h := ID3.countP_key_add_self (ID3.addAll t0 pref)
      (.APIC "image/jpeg" 3 "Cover" resp.content)
    rw [hmem]
    simpa [Frame.hashKey] using h
  · intro g hg hgpic hgkey
    rw [embedFramesMemory_eq_addAll]
    apply ID3.mem_addAll_of_ne _ _ _ hg
    intro fr hfr heq
    obtain ⟨d, hd⟩ := picture_hashKey g hgpic
    have hfrkey : fr.hashKey = .apic d := by rw [← heq, hd]
    have : d = "Cover" :=
      embedFrameList_apic_desc m lyrics (some resp) fr hfr d hfrkey
    rw [this] at hd
    exact hgkey hd
  · intro g hg hgback
    rw [embedFramesMemory_eq_addAll] at hg
    rcases ID3.mem_addAll_cases _ _ _ hg with h | h
    · exact h
    · obtain ⟨u2, resp2, _, _, _, _, heq⟩ :=
        embedFrameList_picture m lyrics (some resp) g h
          (isPicture_of_isBackCover g hgback)
      rw [heq] at hgback
      simp [Frame.isBackCover] at hgback

/-- Witness for the amended C1 at a concrete input: an empty initial tag
section, a record with a cover URL, and a status-200 fetch. -/
theorem embed_cover_replace_amended_witness :
    (({ title := "T", artist := "A", album := "B",
        cover_url := some "http://img.example/c.jpg" } : Metadata).cover_url
      = some "http://img.example/c.jpg") ∧
    pyTruthy "http://img.example/c.jpg" = true ∧
    ((⟨200, [1, 2]⟩ : CoverResp).status = 200) ∧
    (embed_metadata (.ok ⟨some []⟩)
        { title := "T", artist := "A", album := "B",
          cover_url := some "http://img.example/c.jpg" } "ly"
        (some ⟨200, [1, 2]⟩)
      = some (embedFramesPath
          { title := "T", artist := "A", album := "B",
            cover_url := some "http://img.example/c.jpg" } "ly"
          (some ⟨200, [1, 2]⟩) []) ∧
     embed_metadata_memory (.ok ⟨some []⟩)
        { title := "T", artist := "A", album := "B",
          cover_url := some "http://img.example/c.jpg" } "ly"
        (some ⟨200, [1, 2]⟩)
      = some (embedFramesMemory
          { title := "T", artist := "A", album := "B",
            cover_url := some "http://img.example/c.jpg" } "ly"
          (some ⟨200, [1, 2]⟩) []) ∧
     embedFramesPath
        { title := "T", artist := "A", album := "B",
          cover_url := some "http://img.example/c.jpg" } "ly"
        (some ⟨200, [1, 2]⟩) []
      = embedFramesMemory
          { title := "T", artist := "A", album := "B",
            cover_url := some "http://img.example/c.jpg" } "ly"
          (some ⟨200, [1, 2]⟩) [] ∧
     ID3.getKey (embedFramesMemory
          { title := "T", artist := "A", album := "B",
            cover_url := some "http://img.example/c.jpg" } "ly"
          (some ⟨200, [1, 2]⟩) []) (.apic "Cover")
      = some (.APIC "image/jpeg" 3 "Cover" [1, 2]) ∧
     (embedFramesMemory
          { title := "T", artist := "A", album := "B",
            cover_url := some "http://img.example/c.jpg" } "ly"
          (some ⟨200, [1, 2]⟩) []).countP
        (fun g => g.hashKey == HashKey.apic "Cover") = 1 ∧
     (∀ g ∈ ([] : Tags), g.isPicture = true →
        g.hashKey ≠ .apic "Cover" →
        g ∈ embedFramesMemory
          { title := "T", artist := "A", album := "B",
            cover_url := some "http://img.example/c.jpg" } "ly"
          (some ⟨200, [1, 2]⟩) []) ∧
     (∀ g ∈ embedFramesMemory
          { title := "T", artist := "A", album := "B",
            cover_url := some "http://img.example/c.jpg" } "ly"
          (some ⟨200, [1, 2]⟩) [],
        g.isBackCover = true → g ∈ ([] : Tags))) :=
  ⟨rfl, by decide, rfl,
   embed_cover_replace_amended [] _ "ly" "http://img.example/c.jpg"
     ⟨200, [1, 2]⟩ rfl (by decide) rfl⟩

/-! ## Helper lemmas on the strategy chain -/

theorem pyStep_notFalsy (a m : Option String) (ha : pyFalsy a = false) :
    pyStep a m = a := by
  simp [pyStep, ha]

theorem pyStep_falsy (a m : Option String) (ha : pyFalsy a = true) :
    pyStep a m = (m <|> a) := by
  simp [pyStep, ha]

theorem pyFalsy_orElse (a m : Option String) (ha : pyFalsy a = true)
    (hm : pyFalsy m = true) : pyFalsy (m <|> a) = true := by
  cases m with
  | none => simpa using ha
  | some s => simpa using hm

theorem orElse_of_notFalsy (a m : Option String) (hm : pyFalsy m = false) :
    (m <|> a) = m := by
  cases m with
  | none => simp [pyFalsy] at hm
  | some s => simp

theorem firstTruthy_cons_falsy (x : Option String) (l : List (Option String))
    (hx : pyFalsy x = true) : firstTruthy (x :: l) = firstTruthy l := by
  simp [firstTruthy, List.find?_cons, hx]

theorem firstTruthy_cons_notFalsy (x : Option String)
    (l : List (Option String)) (hx : pyFalsy x = false) :
    firstTruthy (x :: l) = x := by
  simp [firstTruthy, List.find?_cons, hx]

/-! ## Claim theorems: the Resolver -/

/-- C9: the four lookup strategies are tried in the fixed priority order
audio-src, mp3-link, source-src, dbutton-href, and the first strategy whose
value is non-empty determines the `audio_url` result; strategies after it
cannot affect the outcome. -/
theorem lookup_strategy_priority (d : Doc)
    (h : (strategyList.map (fun s => s d)).any
      (fun o => !pyFalsy o) = true) :
    findAudioURL d = firstTruthy (strategyList.map (fun s => s d)) := by
  simp only [strategyList, List.map_cons, List.map_nil] at h ⊢
  simp only [findAudioURL]
  by_cases h1 : pyFalsy (method1 d) = true
  · rw [pyStep_falsy _ _ h1]
    by_cases h2 : pyFalsy (method2 d) = true
    · have h12 : pyFalsy (method2 d <|> method1 d) = true :=
        pyFalsy_orElse _ _ h1 h2
      rw [pyStep_falsy _ _ h12]
      by_cases h3 : pyFalsy (method3 d) = true
      · have h123 : pyFalsy (method3 d <|> (method2 d <|> method1 d))
            = true := pyFalsy_orElse _ _ h12 h3
        rw [pyStep_falsy _ _ h123]
        by_cases h4 : pyFalsy (method4 d) = true
        · simp [h1, h2, h3, h4] at h
        · have h4' : pyFalsy (method4 d) = false := by simpa using h4
          rw [orElse_of_notFalsy _ _ h4',
            firstTruthy_cons_falsy _ _ h1, firstTruthy_cons_falsy _ _ h2,
            firstTruthy_cons_falsy _ _ h3,
            firstTruthy_cons_notFalsy _ _ h4']
      · have h3' : pyFalsy (method3 d) = false := by simpa using h3
        rw [orElse_of_notFalsy _ _ h3', pyStep_notFalsy _ _ h3',
          firstTruthy_cons_falsy _ _ h1, firstTruthy_cons_falsy _ _ h2,
          firstTruthy_cons_notFalsy _ _ h3']
    · have h2' : pyFalsy (method2 d) = false := by simpa using h2
      rw [orElse_of_notFalsy _ _ h2', pyStep_notFalsy _ _ h2',
        pyStep_notFalsy _ _ h2', firstTruthy_cons_falsy _ _ h1,
        firstTruthy_cons_notFalsy _ _ h2']
  · have h1' : pyFalsy (method1 d) = false := by simpa using h1
    rw [pyStep_notFalsy _ _ h1', pyStep_notFalsy _ _ h1',
      pyStep_notFalsy _ _ h1', firstTruthy_cons_notFalsy _ _ h1']

/-- Witness for C9 at a concrete document: no audio tag has a `src`, but a
hyperlink ends in `.mp3`, so strategy (b) determines the result. -/
theorem lookup_strategy_priority_witness :
    ((strategyList.map (fun s =>
        s ⟨none, [none], ["http://h/a.mp3"], [some "http://h/b.ogg"], [],
           none, none⟩)).any (fun o => !pyFalsy o) = true) ∧
    findAudioURL
        ⟨none, [none], ["http://h/a.mp3"], [some "http://h/b.ogg"], [],
         none, none⟩
      = firstTruthy (strategyList.map (fun s =>
          s ⟨none, [none], ["http://h/a.mp3"], [some "http://h/b.ogg"], [],
             none, none⟩)) :=
  ⟨by decide,
   lookup_strategy_priority
     ⟨none, [none], ["http://h/a.mp3"], [some "http://h/b.ogg"], [],
      none, none⟩ (by decide)⟩

/-- C2: the Resolver never lets an exception cross its boundary — whenever
the google search returns zero results, or any modelled step of the body
raises, `search_pagalworld` returns the not-found triple with all three
fields absent. -/
theorem resolve_never_raises (query : String) (env : ResolverEnv)
    (h : env.searchResults = .ok [] ∨
      ∃ e : PyExc, searchBody query env = .error e) :
    search_pagalworld query env = (none, none, none) := by
  rcases h with h | ⟨e, he⟩
  · simp [search_pagalworld, searchBody, h, bind, Except.bind, pure,
      Except.pure]
  · simp [search_pagalworld, he]

/-- Witness for C2 at a concrete environment: the google search raises a
network exception. -/
theorem resolve_never_raises_witness :
    ((⟨.error (.netError "timeout"), .error (.netError "timeout")⟩ :
        ResolverEnv).searchResults = .ok [] ∨
      ∃ e : PyExc, searchBody "tum he ho"
        ⟨.error (.netError "timeout"), .error (.netError "timeout")⟩
        = .error e) ∧
    search_pagalworld "tum he ho"
        ⟨.error (.netError "timeout"), .error (.netError "timeout")⟩
      = (none, none, none) :=
  ⟨Or.inr ⟨.netError "timeout", rfl⟩,
   resolve_never_raises "tum he ho"
     ⟨.error (.netError "timeout"), .error (.netError "timeout")⟩
     (Or.inr ⟨.netError "timeout", rfl⟩)⟩

/-- C7: when the search yields a first result page, the page fetch and
parse succeed, and none of the four strategies yields a truthy audio
reference, the Resolver returns the partial result
(audioURL absent, pageURL present, title absent), which differs from the
total-failure triple. -/
theorem resolve_partial_result (query : String) (env : ResolverEnv)
    (page_url : String) (rest : List String) (doc : Doc)
    (hs : env.searchResults = .ok (page_url :: rest))
    (hp : env.page = .ok doc)
    (ha : pyFalsy (findAudioURL doc) = true) :
    search_pagalworld query env = (none, some page_url, none) ∧
    (none, some page_url, none) ≠ ((none, none, none) : SearchResult) := by
  constructor
  · simp [search_pagalworld, searchBody, hs, hp, ha, bind, Except.bind,
      pure, Except.pure]
  · simp

/-- Witness for C7 at a concrete environment: one search result and a page
with no audio reference at all. -/
theorem resolve_partial_result_witness :
    ((⟨.ok ["http://pagalworld.com.co/song.html"],
        .ok ⟨some "Song", [], [], [], [], none, none⟩⟩ :
        ResolverEnv).searchResults
      = .ok ["http://pagalworld.com.co/song.html"]) ∧
    ((⟨.ok ["http://pagalworld.com.co/song.html"],
        .ok ⟨some "Song", [], [], [], [], none, none⟩⟩ :
        ResolverEnv).page = .ok ⟨some "Song", [], [], [], [], none, none⟩) ∧
    pyFalsy (findAudioURL ⟨some "Song", [], [], [], [], none, none⟩)
      = true ∧
    (search_pagalworld "q"
        ⟨.ok ["http://pagalworld.com.co/song.html"],
         .ok ⟨some "Song", [], [], [], [], none, none⟩⟩
      = (none, some "http://pagalworld.com.co/song.html", none) ∧
     (none, some "http://pagalworld.com.co/song.html", none)
      ≠ ((none, none, none) : SearchResult)) :=
  ⟨rfl, rfl, by decide,
   resolve_partial_result "q"
     ⟨.ok ["http://pagalworld.com.co/song.html"],
      .ok ⟨some "Song", [], [], [], [], none, none⟩⟩
     "http://pagalworld.com.co/song.html" [] 
     ⟨some "Song", [], [], [], [], none, none⟩ rfl rfl (by decide)⟩

/-- C10: the Spotify metadata lookup can never supply a record: wherever
the two provider fetches succeed, evaluation of the metadata dict reads
the unbound local name `album` (line 174) and raises NameError, and the
enclosing handler converts every exception to None. -/
theorem spotify_metadata_always_none
    (trackFetch : Except PyExc SpotifyTrack)
    (featuresFetch : Except PyExc AudioFeatures) :
    get_complete_spotify_metadata trackFetch featuresFetch = none ∧
    (∀ t af, trackFetch = .ok t → featuresFetch = .ok af →
      spotifyBody trackFetch featuresFetch
        = .error (.nameError "album")) := by
  have hlookup : lookupLocal "album" = .error (.nameError "album") := rfl
  constructor
  · unfold get_complete_spotify_metadata
    cases trackFetch with
    | error e => rfl
    | ok t =>
      cases featuresFetch with
      | error e => rfl
      | ok af =>
        simp only [spotifyBody, bind, Except.bind, hlookup]
  · intro t af ht haf
    subst ht; subst haf
    simp only [spotifyBody, bind, Except.bind, hlookup]

/-- Witness for C10 at concrete successful provider fetches. -/
theorem spotify_metadata_always_none_witness :
    ((.ok ⟨"Song", "Artist", "Album", "2013-01-01", [], 1, 1⟩ :
        Except PyExc SpotifyTrack)
      = .ok ⟨"Song", "Artist", "Album", "2013-01-01", [], 1, 1⟩) ∧
    ((.ok ⟨none, none⟩ : Except PyExc AudioFeatures) = .ok ⟨none, none⟩) ∧
    (get_complete_spotify_metadata
        (.ok ⟨"Song", "Artist", "Album", "2013-01-01", [], 1, 1⟩)
        (.ok ⟨none, none⟩) = none ∧
     (∀ t af,
        (.ok ⟨"Song", "Artist", "Album", "2013-01-01", [], 1, 1⟩ :
          Except PyExc SpotifyTrack) = .ok t →
        (.ok ⟨none, none⟩ : Except PyExc AudioFeatures) = .ok af →
        spotifyBody
          (.ok ⟨"Song", "Artist", "Album", "2013-01-01", [], 1, 1⟩)
          (.ok ⟨none, none⟩) = .error (.nameError "album"))) :=
  ⟨rfl, rfl,
   spotify_metadata_always_none
     (.ok ⟨"Song", "Artist", "Album", "2013-01-01", [], 1, 1⟩)
     (.ok ⟨none, none⟩)⟩

/-- C3 counterexample: for the page URL `https://site.example/songs/abc`,
whose last path segment has no dot, the code does not strip the last
segment, while the claim's rule strips unconditionally — the two resolved
URLs differ. -/
theorem resolve_relative_counterexample :
    resolveAudioURL "x.mp3" (urlparse "https://site.example/songs/abc")
      = "https://site.example/songs/abc/x.mp3" ∧
    claimedResolveAudioURL "x.mp3"
        (urlparse "https://site.example/songs/abc")
      = "https://site.example/songs/x.mp3" ∧
    resolveAudioURL "x.mp3" (urlparse "https://site.example/songs/abc")
      ≠ claimedResolveAudioURL "x.mp3"
          (urlparse "https://site.example/songs/abc") := by
  refine ⟨by decide, by decide, by decide⟩

/-- C3 (amended): a non-absolute reference beginning with `/` resolves to
scheme://netloc/<reference>; any other non-absolute reference resolves
against the page path with the last path segment stripped only when that
segment contains a dot (a filename segment), and against the full page
path otherwise. -/
theorem resolve_relative_amended (ref : String) (base : UrlParts)
    (habs : (pyStartsWith ref "http://" || pyStartsWith ref "https://")
      = false) :
    resolveAudioURL ref base = amendedResolveAudioURL ref base := by
  unfold resolveAudioURL amendedResolveAudioURL
  rw [habs]
  simp only [Bool.false_eq_true, if_false]
  by_cases hsl : pyStartsWith ref "/" = true
  · simp [hsl]
  · have hsl' : pyStartsWith ref "/" = false := by simpa using hsl
    simp only [hsl', Bool.false_eq_true, if_false]
    by_cases hdot :
        pyContainsChar ((pySplitSlash base.path).getLast?.getD "") '.'
          = true
    · simp [lastSegment, stripLastSegment, hdot]
    · have hdot' :
          pyContainsChar ((pySplitSlash base.path).getLast?.getD "") '.'
            = false := by simpa using hdot
      simp [lastSegment, stripLastSegment, hdot',
        pyJoinSlash_pySplitSlash]

/-- Witness for the amended C3 at the spec's own example: page
`https://site.example/songs/abc.html` with reference `download/x.mp3`. -/
theorem resolve_relative_amended_witness :
    ((pyStartsWith "download/x.mp3" "http://"
        || pyStartsWith "download/x.mp3" "https://") = false) ∧
    resolveAudioURL "download/x.mp3"
        (urlparse "https://site.example/songs/abc.html")
      = amendedResolveAudioURL "download/x.mp3"
          (urlparse "https://site.example/songs/abc.html") ∧
    resolveAudioURL "download/x.mp3"
        (urlparse "https://site.example/songs/abc.html")
      = "https://site.example/songs/download/x.mp3" ∧
    resolveAudioURL "/files/x.mp3"
        (urlparse "https://site.example/songs/abc.html")
      = "https://site.example/files/x.mp3" :=
  ⟨by decide,
   resolve_relative_amended "download/x.mp3"
     (urlparse "https://site.example/songs/abc.html") (by decide),
   by decide, by decide⟩
